import Mathlib

/-!
Shallow embedding of the CoreDNS `ocp_dnsnameresolver` plugin
(`dnsnameresolver.go`): the dual DNS index (regular / wildcard maps), the
informer event handlers (Add / Delete / Update), and the plugin lifecycle
callbacks (`onStart`, `onShut`).

Go maps are modelled as association lists with first-match lookup,
in-place replacement on insert, and key removal on delete.  A Go map read
of a missing key returns the zero value `""`; this is modelled by
`goLookup`.
-/

namespace OCPDNSNameResolver

/-- Association-list lookup: the value of the first pair whose key matches. -/
def mapLookup {α : Type} : List (String × α) → String → Option α
  | [], _ => none
  | (k', v) :: rest, k => if k' = k then some v else mapLookup rest k

/-- Association-list insert: replace the first pair with this key in place,
or append the pair at the end (models Go `m[k] = v`). -/
def mapInsert {α : Type} : List (String × α) → String → α → List (String × α)
  | [], k, v => [(k, v)]
  | (k', v') :: rest, k, v =>
    if k' = k then (k, v) :: rest else (k', v') :: mapInsert rest k v

/-- Association-list delete: remove every pair with this key
(models Go `delete(m, k)`; keys are unique in states built by the
operations, so removing all occurrences matches Go). -/
def mapDelete {α : Type} : List (String × α) → String → List (String × α)
  | [], _ => []
  | (k', v') :: rest, k =>
    if k' = k then mapDelete rest k else (k', v') :: mapDelete rest k

/-- namespaceDNSInfo: key is the namespace, value is the DNSNameResolver
object name (Go type `map[string]string`). -/
abbrev namespaceDNSInfo := List (String × String)

/-- DNS name info map: key is the DNS name, value the namespaceDNSInfo map
(Go type `map[string]namespaceDNSInfo`). -/
abbrev DNSInfoMap := List (String × namespaceDNSInfo)

/-- Go map read with zero-value default: `m[k]` yields `""` when `k` is
absent. -/
def goLookup (m : namespaceDNSInfo) (k : String) : String :=
  (mapLookup m k).getD ""

/-- Modelled from the spec: `isWildcard` is not part of the excerpted
source file; per the spec a DNS name is a wildcard exactly when its text
begins with the two characters star-dot. -/
def isWildcard (dnsName : String) : Bool :=
  match dnsName.data with
  | '*' :: '.' :: _ => true
  | _ => false

/-- Modelled from the spec: `configuredNamespace` is not part of the
excerpted source file; per the spec it is a pure membership predicate over
the configured namespace allow-set. -/
def configuredNamespace (namespaces : List String) (ns : String) : Bool :=
  namespaces.contains ns

/-- The DNSNameResolver object fields used by the handlers:
`ns` is `.Namespace`, `name` is `.Name` (object name), `specName` is
`string(.Spec.Name)` (the DNS name). -/
structure DNSNameResolverObj where
  ns : String
  name : String
  specName : String
deriving DecidableEq, Repr

/-- The resolver state touched by the event handlers: the configured
namespace allow-set and the two DNS info maps. -/
structure ResolverState where
  namespaces : List String
  regularDNSInfo : DNSInfoMap
  wildcardDNSInfo : DNSInfoMap
deriving DecidableEq, Repr

/-- The body of the AddFunc handler on one index (lines 101-115 / 119-133):
if an entry exists and its Go-map read of the namespace differs from the
object name, return early (`none`, no mutation, no send); otherwise record
namespace -> object name and return the updated index. -/
def upsert (index : DNSInfoMap) (dnsName ns name : String) : Option DNSInfoMap :=
  match mapLookup index dnsName with
  | some dnsInfoMap =>
    if goLookup dnsInfoMap ns ≠ name then none
    else some (mapInsert index dnsName (mapInsert dnsInfoMap ns name))
  | none => some (mapInsert index dnsName (mapInsert ([] : namespaceDNSInfo) ns name))

/-- The body of the DeleteFunc handler on one index (lines 160-174 /
178-192): if an entry exists and its Go-map read of the namespace equals
the object name, delete the namespace key; keep the entry if namespaces
remain, else delete the DNS name key. -/
def remove (index : DNSInfoMap) (dnsName ns name : String) : DNSInfoMap :=
  match mapLookup index dnsName with
  | some dnsInfoMap =>
    if goLookup dnsInfoMap ns = name then
      let newMap := mapDelete dnsInfoMap ns
      if 0 < newMap.length then mapInsert index dnsName newMap
      else mapDelete index dnsName
    else index
  | none => index

/-- The AddFunc handler (lines 83-140).  `obj = none` models a payload that
fails the type assertion.  The second component is the object passed to the
`send` hook (`sendSet` models `send != nil`); on the conflict early-return
no send happens. -/
def handleAdd (st : ResolverState) (sendSet : Bool) (obj : Option DNSNameResolverObj) :
    ResolverState × Option DNSNameResolverObj :=
  match obj with
  | none => (st, none)
  | some o =>
    if !configuredNamespace st.namespaces o.ns then (st, none)
    else
      if isWildcard o.specName then
        match upsert st.wildcardDNSInfo o.specName o.ns o.name with
        | none => (st, none)
        | some idx =>
          ({ st with wildcardDNSInfo := idx }, if sendSet then some o else none)
      else
        match upsert st.regularDNSInfo o.specName o.ns o.name with
        | none => (st, none)
        | some idx =>
          ({ st with regularDNSInfo := idx }, if sendSet then some o else none)

/-- The DeleteFunc handler (lines 142-199).  After the type and namespace
checks it always reaches the send call, whether or not the index changed. -/
def handleDelete (st : ResolverState) (sendSet : Bool) (obj : Option DNSNameResolverObj) :
    ResolverState × Option DNSNameResolverObj :=
  match obj with
  | none => (st, none)
  | some o =>
    if !configuredNamespace st.namespaces o.ns then (st, none)
    else
      let st2 :=
        if isWildcard o.specName then
          { st with wildcardDNSInfo := remove st.wildcardDNSInfo o.specName o.ns o.name }
        else
          { st with regularDNSInfo := remove st.regularDNSInfo o.specName o.ns o.name }
      (st2, if sendSet then some o else none)

/-- The UpdateFunc handler (lines 202-219): the type assertion, the
namespace check and the value passed to `send` all come from `oldObj`;
`newObj` is never examined and no index is touched. -/
def handleUpdate (st : ResolverState) (sendSet : Bool)
    (oldObj _newObj : Option DNSNameResolverObj) :
    ResolverState × Option DNSNameResolverObj :=
  match oldObj with
  | none => (st, none)
  | some o =>
    if !configuredNamespace st.namespaces o.ns then (st, none)
    else (st, if sendSet then some o else none)

/-- One notification of the informer stream. -/
inductive Event
  | added (obj : Option DNSNameResolverObj)
  | updated (oldObj newObj : Option DNSNameResolverObj)
  | deleted (obj : Option DNSNameResolverObj)
deriving DecidableEq, Repr

/-- Dispatch of one notification to the matching handler. -/
def processEvent (st : ResolverState) (sendSet : Bool) :
    Event → ResolverState × Option DNSNameResolverObj
  | Event.added obj => handleAdd st sendSet obj
  | Event.updated o1 o2 => handleUpdate st sendSet o1 o2
  | Event.deleted obj => handleDelete st sendSet obj

/-- The index an Add or Delete for this DNS name operates on. -/
def selectedIndex (st : ResolverState) (dnsName : String) : DNSInfoMap :=
  if isWildcard dnsName then st.wildcardDNSInfo else st.regularDNSInfo

/-- Lifecycle state of `initPlugin`: the shutdown flag and how many times
the stop channel has been closed (`close(resolver.stopCh)`). -/
structure LifecycleState where
  shutdown : Bool
  stopChCloseCount : Nat
deriving DecidableEq, Repr

/-- State right after `initPlugin` makes the stop channel (line 243). -/
def initialLifecycleState : LifecycleState :=
  { shutdown := false, stopChCloseCount := 0 }

/-- The `onShut` callback (lines 273-286): under the stop lock, close the
channel and set the flag on the first call; later calls return the
"shutdown already in progress" error without touching the channel. -/
def onShut (st : LifecycleState) : LifecycleState × Option String :=
  if !st.shutdown then
    ({ shutdown := true, stopChCloseCount := st.stopChCloseCount + 1 }, none)
  else
    (st, some "shutdown already in progress")

/-- Run `n` consecutive `onShut` calls, collecting each call's result. -/
def runShut : Nat → LifecycleState → LifecycleState × List (Option String)
  | 0, st => (st, [])
  | Nat.succ n, st =>
    let p := onShut st
    let q := runShut n p.1
    (q.1, p.2 :: q.2)

/-- One firing in the `onStart` select loop (lines 258-270): the 100 ms
sync-check ticker, the 500 ms log ticker, or the 5 s timeout ticker. -/
inductive TickEvent
  | checkSync
  | logTick
  | timeout
deriving DecidableEq, Repr

/-- The `onStart` wait loop (lines 258-270) over a trace of ticker firings.
`hasSynced` gives the informer's has-synced answer at each poll.  The
result is `none` while the loop is still running, and `some r` when it
returns with error value `r` (`r = none` is the Go `nil` error). -/
def onStartLoop (hasSynced : Nat → Bool) (polls : Nat) :
    List TickEvent → Option (Option String)
  | [] => none
  | TickEvent.checkSync :: rest =>
    if hasSynced polls then some none else onStartLoop hasSynced (polls + 1) rest
  | TickEvent.logTick :: rest => onStartLoop hasSynced polls rest
  | TickEvent.timeout :: _ => some none

/-- Bool form of invariant I2: no DNS name maps to an empty namespace set. -/
def noEmptyB (index : DNSInfoMap) : Bool :=
  index.all (fun p => !p.2.isEmpty)

/-- Bool form of invariant I2 on a whole resolver state. -/
def noEmptyStateB (st : ResolverState) : Bool :=
  noEmptyB st.regularDNSInfo && noEmptyB st.wildcardDNSInfo

/-- Bool form of invariant I3: every key of the regular map is a
non-wildcard name and every key of the wildcard map is a wildcard name. -/
def partitionB (st : ResolverState) : Bool :=
  st.regularDNSInfo.all (fun p => !isWildcard p.1) &&
  st.wildcardDNSInfo.all (fun p => isWildcard p.1)

/-- Concrete example state used to instantiate the theorems: namespaces
ns1 and ns2 are configured, one regular and one wildcard entry exist, each
owned by ns1. -/
def exState : ResolverState :=
  { namespaces := ["ns1", "ns2"],
    regularDNSInfo := [("www.example.com", [("ns1", "o1")])],
    wildcardDNSInfo := [("*.example.com", [("ns1", "o1")])] }

/-! ### Helper lemmas on the association-list map operations -/

theorem mapLookup_insert_self {α : Type} (m : List (String × α)) (k : String) (v : α) :
    mapLookup (mapInsert m k v) k = some v := by
  induction m with
  | nil => simp [mapInsert, mapLookup]
  | cons p rest ih =>
    obtain ⟨k', v'⟩ := p
    by_cases h : k' = k
    · simp [mapInsert, mapLookup, h]
    · simp [mapInsert, mapLookup, h, ih]

theorem mapLookup_delete_self {α : Type} (m : List (String × α)) (k : String) :
    mapLookup (mapDelete m k) k = none := by
  induction m with
  | nil => simp [mapDelete, mapLookup]
  | cons p rest ih =>
    obtain ⟨k', v'⟩ := p
    by_cases h : k' = k
    · simp [mapDelete, h, ih]
    · simp [mapDelete, mapLookup, h, ih]

theorem mapInsert_insert_self {α : Type} (m : List (String × α)) (k : String) (v w : α) :
    mapInsert (mapInsert m k v) k w = mapInsert m k w := by
  induction m with
  | nil => simp [mapInsert]
  | cons p rest ih =>
    obtain ⟨k', v'⟩ := p
    by_cases h : k' = k
    · simp [mapInsert, h]
    · simp [mapInsert, h, ih]

theorem mapDelete_delete_self {α : Type} (m : List (String × α)) (k : String) :
    mapDelete (mapDelete m k) k = mapDelete m k := by
  induction m with
  | nil => simp [mapDelete]
  | cons p rest ih =>
    obtain ⟨k', v'⟩ := p
    by_cases h : k' = k
    · simp [mapDelete, h, ih]
    · simp [mapDelete, h, ih]

theorem mapLookup_mem {α : Type} {m : List (String × α)} {k : String} {v : α}
    (h : mapLookup m k = some v) : (k, v) ∈ m := by
  induction m with
  | nil => simp [mapLookup] at h
  | cons p rest ih =>
    obtain ⟨k', v'⟩ := p
    by_cases hk : k' = k
    · subst hk
      simp [mapLookup] at h
      subst h
      exact List.mem_cons_self _ _
    · simp [mapLookup, hk] at h
      exact List.mem_cons_of_mem _ (ih h)

theorem mapInsert_ne_nil {α : Type} (m : List (String × α)) (k : String) (v : α) :
    mapInsert m k v ≠ [] := by
  cases m with
  | nil => simp [mapInsert]
  | cons p rest =>
    obtain ⟨k', v'⟩ := p
    by_cases h : k' = k <;> simp [mapInsert, h]

theorem mapInsert_all {α : Type} {m : List (String × α)} {P : String × α → Bool}
    {k : String} {v : α} (hm : m.all P = true) (hp : P (k, v) = true) :
    (mapInsert m k v).all P = true := by
  induction m with
  | nil => simp [mapInsert, hp]
  | cons p rest ih =>
    obtain ⟨k', v'⟩ := p
    simp only [List.all_cons, Bool.and_eq_true] at hm
    by_cases h : k' = k
    · simp [mapInsert, h, hp, hm.2]
    · simp [mapInsert, h, hm.1, ih hm.2]

theorem mapDelete_all {α : Type} {m : List (String × α)} {P : String × α → Bool}
    {k : String} (hm : m.all P = true) : (mapDelete m k).all P = true := by
  induction m with
  | nil => simp [mapDelete]
  | cons p rest ih =>
    obtain ⟨k', v'⟩ := p
    simp only [List.all_cons, Bool.and_eq_true] at hm
    by_cases h : k' = k
    · simp [mapDelete, h, ih hm.2]
    · simp [mapDelete, h, hm.1, ih hm.2]

theorem goLookup_insert_self (m : namespaceDNSInfo) (k v : String) :
    goLookup (mapInsert m k v) k = v := by
  simp [goLookup, mapLookup_insert_self]

theorem goLookup_delete_self (m : namespaceDNSInfo) (k : String) :
    goLookup (mapDelete m k) k = "" := by
  simp [goLookup, mapLookup_delete_self]

theorem upsert_idem {index idx : DNSInfoMap} {d ns n : String}
    (h : upsert index d ns n = some idx) : upsert idx d ns n = some idx := by
  unfold upsert at h ⊢
  cases hl : mapLookup index d with
  | some m =>
    rw [hl] at h
    by_cases hg : goLookup m ns ≠ n
    · simp [hg] at h
    · simp only [hg, if_false] at h
      cases h
      rw [mapLookup_insert_self]
      have hg2 : goLookup (mapInsert m ns n) ns = n := goLookup_insert_self m ns n
      simp [hg2, mapInsert_insert_self]
  | none =>
    rw [hl] at h
    simp only [Option.some.injEq] at h
    cases h
    rw [mapLookup_insert_self]
    have hg2 : goLookup (mapInsert ([] : namespaceDNSInfo) ns n) ns = n :=
      goLookup_insert_self [] ns n
    simp [hg2, mapInsert_insert_self]

theorem remove_idem (index : DNSInfoMap) (d ns n : String) :
    remove (remove index d ns n) d ns n = remove index d ns n := by
  cases hl : mapLookup index d with
  | none =>
    have hr : remove index d ns n = index := by
      unfold remove
      rw [hl]
    rw [hr]
    unfold remove
    rw [hl]
  | some m =>
    by_cases hg : goLookup m ns = n
    · by_cases hlen : 0 < (mapDelete m ns).length
      · have hr : remove index d ns n = mapInsert index d (mapDelete m ns) := by
          unfold remove
          rw [hl]
          simp [hg, hlen]
        rw [hr]
        unfold remove
        rw [mapLookup_insert_self]
        by_cases hn : n = ""
        · have hg2 : goLookup (mapDelete m ns) ns = n := by
            rw [goLookup_delete_self, hn]
          simp [hg2, mapDelete_delete_self, hlen, mapInsert_insert_self]
        · have hg2 : ¬ goLookup (mapDelete m ns) ns = n := by
            rw [goLookup_delete_self]
            exact fun hh => hn hh.symm
          simp [hg2]
      · have hr : remove index d ns n = mapDelete index d := by
          unfold remove
          rw [hl]
          simp [hg, hlen]
        rw [hr]
        unfold remove
        rw [mapLookup_delete_self]
    · have hr : remove index d ns n = index := by
        unfold remove
        rw [hl]
        simp [hg]
      rw [hr]
      unfold remove
      rw [hl]
      simp [hg]

/-! ### Claim theorems -/

/-- Claim C5: processing the same Add notification twice (same
name/namespace/object) yields an index state identical to processing it
once, and likewise for Delete: the second application is a no-op on the
index. -/
theorem add_delete_idempotent (st : ResolverState) (b : Bool)
    (obj : Option DNSNameResolverObj) :
    (handleAdd (handleAdd st b obj).1 b obj).1 = (handleAdd st b obj).1 ∧
    (handleDelete (handleDelete st b obj).1 b obj).1 = (handleDelete st b obj).1 := by
  constructor
  · cases obj with
    | none => simp [handleAdd]
    | some o =>
      by_cases hns : configuredNamespace st.namespaces o.ns
      · by_cases hw : isWildcard o.specName
        · cases hu : upsert st.wildcardDNSInfo o.specName o.ns o.name with
          | none => simp [handleAdd, hns, hw, hu]
          | some idx =>
            have hu2 := upsert_idem hu
            simp [handleAdd, hns, hw, hu, hu2]
        · cases hu : upsert st.regularDNSInfo o.specName o.ns o.name with
          | none => simp [handleAdd, hns, hw, hu]
          | some idx =>
            have hu2 := upsert_idem hu
            simp [handleAdd, hns, hw, hu, hu2]
      · simp [handleAdd, hns]
  · cases obj with
    | none => simp [handleDelete]
    | some o =>
      by_cases hns : configuredNamespace st.namespaces o.ns
      · by_cases hw : isWildcard o.specName
        · simp [handleDelete, hns, hw, remove_idem]
        · simp [handleDelete, hns, hw, remove_idem]
      · simp [handleDelete, hns]

/-- Claim C8: an Update notification never mutates either index: the state
after the Update handler equals the state before, for every pair of
old/new objects; the notification is only namespace-filtered and then
forwarded to the observer hook when one is set. -/
theorem update_never_mutates (st : ResolverState) (b : Bool)
    (oldObj newObj : Option DNSNameResolverObj) :
    (handleUpdate st b oldObj newObj).1 = st ∧
    (handleUpdate st b oldObj newObj).2 =
      (match oldObj with
       | none => none
       | some o =>
         if configuredNamespace st.namespaces o.ns && b then some o else none) := by
  cases oldObj with
  | none => simp [handleUpdate]
  | some o =>
    by_cases hns : configuredNamespace st.namespaces o.ns
    · by_cases hb : b <;> simp [handleUpdate, hns, hb]
    · simp [handleUpdate, hns]

/-- Claim C10: the Update handler derives everything from its first
argument: its result is unchanged when the new object is replaced by any
other value, and the observer receives the pre-update object. -/
theorem update_uses_old_object (st : ResolverState) (b : Bool)
    (oldObj newObj newObj2 : Option DNSNameResolverObj) (o : DNSNameResolverObj)
    (hOld : oldObj = some o)
    (hns : configuredNamespace st.namespaces o.ns = true)
    (hb : b = true) :
    handleUpdate st b oldObj newObj = handleUpdate st b oldObj newObj2 ∧
    (handleUpdate st b oldObj newObj).2 = some o := by
  subst hOld
  subst hb
  refine ⟨rfl, ?_⟩
  simp [handleUpdate, hns]

/-- Witness for C10 at a concrete state and objects. -/
theorem update_uses_old_object_witness :
    exState =
      { namespaces := ["ns1", "ns2"],
        regularDNSInfo := [("www.example.com", [("ns1", "o1")])],
        wildcardDNSInfo := [("*.example.com", [("ns1", "o1")])] } ∧
    (handleUpdate exState true
        (some { ns := "ns1", name := "o1", specName := "www.example.com" })
        (some { ns := "ns2", name := "o9", specName := "other.example.com" }) =
      handleUpdate exState true
        (some { ns := "ns1", name := "o1", specName := "www.example.com" }) none ∧
    (handleUpdate exState true
        (some { ns := "ns1", name := "o1", specName := "www.example.com" })
        (some { ns := "ns2", name := "o9", specName := "other.example.com" })).2 =
      some { ns := "ns1", name := "o1", specName := "www.example.com" }) :=
  ⟨rfl,
    update_uses_old_object exState true
      (some { ns := "ns1", name := "o1", specName := "www.example.com" })
      (some { ns := "ns2", name := "o9", specName := "other.example.com" }) none
      { ns := "ns1", name := "o1", specName := "www.example.com" }
      rfl (by decide) rfl⟩

/-- Claim C2: with owner A recorded for DNS name N in namespace X, an Add
of (N, X, B) with B ≠ A leaves the index state unchanged, a Delete of
(N, X, B) is a no-op, and a Delete of (N, X, A) removes namespace X's
entry for N. -/
theorem conflict_rejection (st : ResolverState) (b : Bool) (N X A B : String)
    (m : namespaceDNSInfo)
    (hns : configuredNamespace st.namespaces X = true)
    (hm : mapLookup (selectedIndex st N) N = some m)
    (hown : mapLookup m X = some A)
    (hAB : B ≠ A) :
    (handleAdd st b (some { ns := X, name := B, specName := N })).1 = st ∧
    (handleDelete st b (some { ns := X, name := B, specName := N })).1 = st ∧
    (mapLookup
        (selectedIndex (handleDelete st b (some { ns := X, name := A, specName := N })).1 N)
        N).bind (fun m2 => mapLookup m2 X) = none := by
  have hgo : goLookup m X = A := by simp [goLookup, hown]
  by_cases hw : isWildcard N
  · rw [selectedIndex, if_pos hw] at hm
    refine ⟨?_, ?_, ?_⟩
    · have hu : upsert st.wildcardDNSInfo N X B = none := by
        unfold upsert
        rw [hm]
        simp [hgo, Ne.symm hAB]
      simp [handleAdd, hns, hw, hu]
    · have hr : remove st.wildcardDNSInfo N X B = st.wildcardDNSInfo := by
        unfold remove
        rw [hm]
        simp [hgo, Ne.symm hAB]
      simp [handleDelete, hns, hw, hr]
    · by_cases hlen : 0 < (mapDelete m X).length
      · have hr : remove st.wildcardDNSInfo N X A =
            mapInsert st.wildcardDNSInfo N (mapDelete m X) := by
          unfold remove
          rw [hm]
          simp [hgo, hlen]
        simp [handleDelete, hns, hw, hr, selectedIndex,
          mapLookup_insert_self, mapLookup_delete_self]
      · have hr : remove st.wildcardDNSInfo N X A = mapDelete st.wildcardDNSInfo N := by
          unfold remove
          rw [hm]
          simp [hgo, hlen]
        simp [handleDelete, hns, hw, hr, selectedIndex, mapLookup_delete_self]
  · rw [selectedIndex, if_neg hw] at hm
    refine ⟨?_, ?_, ?_⟩
    · have hu : upsert st.regularDNSInfo N X B = none := by
        unfold upsert
        rw [hm]
        simp [hgo, Ne.symm hAB]
      simp [handleAdd, hns, hw, hu]
    · have hr : remove st.regularDNSInfo N X B = st.regularDNSInfo := by
        unfold remove
        rw [hm]
        simp [hgo, Ne.symm hAB]
      simp [handleDelete, hns, hw, hr]
    · by_cases hlen : 0 < (mapDelete m X).length
      · have hr : remove st.regularDNSInfo N X A =
            mapInsert st.regularDNSInfo N (mapDelete m X) := by
          unfold remove
          rw [hm]
          simp [hgo, hlen]
        simp [handleDelete, hns, hw, hr, selectedIndex,
          mapLookup_insert_self, mapLookup_delete_self]
      · have hr : remove st.regularDNSInfo N X A = mapDelete st.regularDNSInfo N := by
          unfold remove
          rw [hm]
          simp [hgo, hlen]
        simp [handleDelete, hns, hw, hr, selectedIndex, mapLookup_delete_self]

/-- Witness for C2 at a concrete state: the regular entry for
www.example.com owned by ns1/o1 rejects a conflicting o2 and is removed by
its owner. -/
theorem conflict_rejection_witness :
    configuredNamespace exState.namespaces "ns1" = true ∧
    mapLookup (selectedIndex exState "www.example.com") "www.example.com" =
      some [("ns1", "o1")] ∧
    mapLookup [("ns1", "o1")] "ns1" = some "o1" ∧
    "o2" ≠ "o1" ∧
    ((handleAdd exState true
        (some { ns := "ns1", name := "o2", specName := "www.example.com" })).1 = exState ∧
    (handleDelete exState true
        (some { ns := "ns1", name := "o2", specName := "www.example.com" })).1 = exState ∧
    (mapLookup
        (selectedIndex
          (handleDelete exState true
            (some { ns := "ns1", name := "o1", specName := "www.example.com" })).1
          "www.example.com")
        "www.example.com").bind (fun m2 => mapLookup m2 "ns1") = none) :=
  ⟨by decide, by decide, by decide, by decide,
    conflict_rejection exState true "www.example.com" "ns1" "o1" "o2" [("ns1", "o1")]
      (by decide) (by decide) (by decide) (by decide)⟩

/-- Claim C6: a notification whose namespace is not accepted by the
namespace filter leaves both indices unchanged, whatever the notification
kind and whether the DNS name is wildcard or regular. -/
theorem namespace_filter_frame (st : ResolverState) (b : Bool)
    (o : DNSNameResolverObj) (newObj : Option DNSNameResolverObj)
    (hns : configuredNamespace st.namespaces o.ns = false) :
    (handleAdd st b (some o)).1 = st ∧
    (handleDelete st b (some o)).1 = st ∧
    (handleUpdate st b (some o) newObj).1 = st := by
  simp [handleAdd, handleDelete, handleUpdate, hns]

/-- Witness for C6 at a concrete state and an unconfigured namespace. -/
theorem namespace_filter_frame_witness :
    configuredNamespace exState.namespaces "ns9" = false ∧
    ((handleAdd exState true
        (some { ns := "ns9", name := "o1", specName := "*.example.com" })).1 = exState ∧
    (handleDelete exState true
        (some { ns := "ns9", name := "o1", specName := "*.example.com" })).1 = exState ∧
    (handleUpdate exState true
        (some { ns := "ns9", name := "o1", specName := "*.example.com" }) none).1 =
      exState) :=
  ⟨by decide,
    namespace_filter_frame exState true
      { ns := "ns9", name := "o1", specName := "*.example.com" } none (by decide)⟩

/-- Claim C1 counterexample: the regular entry for www.example.com is
owned only by ns1; an Add from the configured namespace ns2 with object o2
is dropped by the conflict guard (the Go map read of the absent namespace
yields the empty string, which differs from o2), so ns2 gains no owner and
no mutation occurs, contrary to the claim. -/
theorem add_new_namespace_counterexample :
    configuredNamespace exState.namespaces "ns2" = true ∧
    mapLookup (selectedIndex exState "www.example.com") "www.example.com" =
      some [("ns1", "o1")] ∧
    mapLookup [("ns1", "o1")] "ns2" = none ∧
    handleAdd exState true
      (some { ns := "ns2", name := "o2", specName := "www.example.com" }) =
      (exState, none) ∧
    (mapLookup
        (selectedIndex
          (handleAdd exState true
            (some { ns := "ns2", name := "o2", specName := "www.example.com" })).1
          "www.example.com") "www.example.com").bind
      (fun m2 => mapLookup m2 "ns2") ≠ some "o2" :=
  ⟨by decide, by decide, by decide, by decide, by decide⟩

/-- Claim C1 as amended: for an Add whose dnsName already has an entry in
the selected index but whose namespace has no owner recorded there, the Go
map read of the absent namespace yields the empty string, so for any
nonempty objectName the conflict guard fires and the handler drops the
notification: the state is unchanged and the observer is not invoked. -/
theorem add_new_namespace_rejected (st : ResolverState) (b : Bool)
    (o : DNSNameResolverObj) (m : namespaceDNSInfo)
    (hns : configuredNamespace st.namespaces o.ns = true)
    (hm : mapLookup (selectedIndex st o.specName) o.specName = some m)
    (habs : mapLookup m o.ns = none)
    (hname : o.name ≠ "") :
    handleAdd st b (some o) = (st, none) := by
  have hgo : goLookup m o.ns = "" := by simp [goLookup, habs]
  by_cases hw : isWildcard o.specName
  · rw [selectedIndex, if_pos hw] at hm
    have hu : upsert st.wildcardDNSInfo o.specName o.ns o.name = none := by
      unfold upsert
      rw [hm]
      simp [hgo, Ne.symm hname]
    simp [handleAdd, hns, hw, hu]
  · rw [selectedIndex, if_neg hw] at hm
    have hu : upsert st.regularDNSInfo o.specName o.ns o.name = none := by
      unfold upsert
      rw [hm]
      simp [hgo, Ne.symm hname]
    simp [handleAdd, hns, hw, hu]

/-- Witness for the amended C1 at the concrete counterexample input. -/
theorem add_new_namespace_rejected_witness :
    configuredNamespace exState.namespaces "ns2" = true ∧
    mapLookup (selectedIndex exState "www.example.com") "www.example.com" =
      some [("ns1", "o1")] ∧
    mapLookup [("ns1", "o1")] "ns2" = none ∧
    "o2" ≠ "" ∧
    handleAdd exState true
      (some { ns := "ns2", name := "o2", specName := "www.example.com" }) =
      (exState, none) :=
  ⟨by decide, by decide, by decide, by decide,
    add_new_namespace_rejected exState true
      { ns := "ns2", name := "o2", specName := "www.example.com" } [("ns1", "o1")]
      (by decide) (by decide) (by decide) (by decide)⟩

theorem mapInsert_isEmpty_false {α : Type} (m : List (String × α)) (k : String) (v : α) :
    (mapInsert m k v).isEmpty = false := by
  cases m with
  | nil => simp [mapInsert]
  | cons p rest =>
    obtain ⟨k', v'⟩ := p
    by_cases h : k' = k <;> simp [mapInsert, h]

theorem upsert_noEmptyB {index idx : DNSInfoMap} {d ns n : String}
    (hInv : noEmptyB index = true) (h : upsert index d ns n = some idx) :
    noEmptyB idx = true := by
  have hInv' : index.all (fun p => !p.2.isEmpty) = true := hInv
  unfold upsert at h
  cases hl : mapLookup index d with
  | some m =>
    rw [hl] at h
    by_cases hg : goLookup m ns ≠ n
    · simp [hg] at h
    · simp only [hg, if_false] at h
      cases h
      show (mapInsert index d (mapInsert m ns n)).all (fun p => !p.2.isEmpty) = true
      exact mapInsert_all hInv' (by simp [mapInsert_isEmpty_false])
  | none =>
    rw [hl] at h
    simp only [Option.some.injEq] at h
    cases h
    show (mapInsert index d (mapInsert ([] : namespaceDNSInfo) ns n)).all
        (fun p => !p.2.isEmpty) = true
    exact mapInsert_all hInv' (by simp [mapInsert_isEmpty_false])

theorem remove_noEmptyB {index : DNSInfoMap} {d ns n : String}
    (hInv : noEmptyB index = true) : noEmptyB (remove index d ns n) = true := by
  have hInv' : index.all (fun p => !p.2.isEmpty) = true := hInv
  cases hl : mapLookup index d with
  | none =>
    have hr : remove index d ns n = index := by
      unfold remove
      rw [hl]
    rw [hr]
    exact hInv
  | some m =>
    by_cases hg : goLookup m ns = n
    · by_cases hlen : 0 < (mapDelete m ns).length
      · have hr : remove index d ns n = mapInsert index d (mapDelete m ns) := by
          unfold remove
          rw [hl]
          simp [hg, hlen]
        rw [hr]
        show (mapInsert index d (mapDelete m ns)).all (fun p => !p.2.isEmpty) = true
        refine mapInsert_all hInv' ?_
        have hne : (mapDelete m ns).isEmpty = false := by
          cases hD : mapDelete m ns with
          | nil =>
            rw [hD] at hlen
            simp at hlen
          | cons a l => simp
        simp [hne]
      · have hr : remove index d ns n = mapDelete index d := by
          unfold remove
          rw [hl]
          simp [hg, hlen]
        rw [hr]
        show (mapDelete index d).all (fun p => !p.2.isEmpty) = true
        exact mapDelete_all hInv'
    · have hr : remove index d ns n = index := by
        unfold remove
        rw [hl]
        simp [hg]
      rw [hr]
      exact hInv

/-- Claim C4: a Delete that removes the last remaining namespace owner of
a dnsName leaves that dnsName absent from the index entirely, and no
notification (Add, Update or Delete) ever leaves a dnsName key mapping to
an empty namespace set. -/
theorem no_empty_entries (st : ResolverState) (b : Bool) (ev : Event)
    (o : DNSNameResolverObj) (m : namespaceDNSInfo)
    (hInv : noEmptyStateB st = true) :
    noEmptyStateB (processEvent st b ev).1 = true ∧
    (configuredNamespace st.namespaces o.ns = true →
      mapLookup (selectedIndex st o.specName) o.specName = some m →
      goLookup m o.ns = o.name →
      mapDelete m o.ns = [] →
      mapLookup (selectedIndex (handleDelete st b (some o)).1 o.specName)
        o.specName = none) := by
  have hri : noEmptyB st.regularDNSInfo = true ∧ noEmptyB st.wildcardDNSInfo = true := by
    simpa [noEmptyStateB, Bool.and_eq_true] using hInv
  constructor
  · cases ev with
    | added obj =>
      cases obj with
      | none => simpa [processEvent, handleAdd] using hInv
      | some o2 =>
        by_cases hns2 : configuredNamespace st.namespaces o2.ns
        · by_cases hw2 : isWildcard o2.specName
          · cases hu : upsert st.wildcardDNSInfo o2.specName o2.ns o2.name with
            | none => simpa [processEvent, handleAdd, hns2, hw2, hu] using hInv
            | some idx =>
              have h2 := upsert_noEmptyB hri.2 hu
              simp [processEvent, handleAdd, hns2, hw2, hu, noEmptyStateB, hri.1, h2]
          · cases hu : upsert st.regularDNSInfo o2.specName o2.ns o2.name with
            | none => simpa [processEvent, handleAdd, hns2, hw2, hu] using hInv
            | some idx =>
              have h2 := upsert_noEmptyB hri.1 hu
              simp [processEvent, handleAdd, hns2, hw2, hu, noEmptyStateB, hri.2, h2]
        · simpa [processEvent, handleAdd, hns2] using hInv
    | updated o1 o2 =>
      cases o1 with
      | none => simpa [processEvent, handleUpdate] using hInv
      | some ou =>
        by_cases hns2 : configuredNamespace st.namespaces ou.ns <;>
          simpa [processEvent, handleUpdate, hns2] using hInv
    | deleted obj =>
      cases obj with
      | none => simpa [processEvent, handleDelete] using hInv
      | some o2 =>
        by_cases hns2 : configuredNamespace st.namespaces o2.ns
        · by_cases hw2 : isWildcard o2.specName
          · simp [processEvent, handleDelete, hns2, hw2, noEmptyStateB, hri.1,
              remove_noEmptyB hri.2]
          · simp [processEvent, handleDelete, hns2, hw2, noEmptyStateB, hri.2,
              remove_noEmptyB hri.1]
        · simpa [processEvent, handleDelete, hns2] using hInv
  · intro hns hm hgo hlast
    by_cases hw : isWildcard o.specName
    · rw [selectedIndex, if_pos hw] at hm
      have hrm : remove st.wildcardDNSInfo o.specName o.ns o.name =
          mapDelete st.wildcardDNSInfo o.specName := by
        unfold remove
        rw [hm]
        simp [hgo, hlast]
      simp [handleDelete, hns, hw, hrm, selectedIndex, mapLookup_delete_self]
    · rw [selectedIndex, if_neg hw] at hm
      have hrm : remove st.regularDNSInfo o.specName o.ns o.name =
          mapDelete st.regularDNSInfo o.specName := by
        unfold remove
        rw [hm]
        simp [hgo, hlast]
      simp [handleDelete, hns, hw, hrm, selectedIndex, mapLookup_delete_self]

/-- Witness for C4: the invariant survives deleting the sole owner ns1/o1
of www.example.com from the concrete state, and the key is removed
entirely. -/
theorem no_empty_entries_witness :
    noEmptyStateB exState = true ∧
    (noEmptyStateB
        (processEvent exState true
          (Event.deleted
            (some { ns := "ns1", name := "o1", specName := "www.example.com" }))).1 = true ∧
    mapLookup
        (selectedIndex
          (handleDelete exState true
            (some { ns := "ns1", name := "o1", specName := "www.example.com" })).1
          "www.example.com")
        "www.example.com" = none) :=
  ⟨by decide,
    (no_empty_entries exState true
      (Event.deleted (some { ns := "ns1", name := "o1", specName := "www.example.com" }))
      { ns := "ns1", name := "o1", specName := "www.example.com" } [("ns1", "o1")]
      (by decide)).1,
    (no_empty_entries exState true
      (Event.deleted (some { ns := "ns1", name := "o1", specName := "www.example.com" }))
      { ns := "ns1", name := "o1", specName := "www.example.com" } [("ns1", "o1")]
      (by decide)).2 (by decide) (by decide) (by decide) (by decide)⟩

theorem upsert_all_keys {index idx : DNSInfoMap} {d ns n : String} (P : String → Bool)
    (hInv : index.all (fun p => P p.1) = true) (hd : P d = true)
    (h : upsert index d ns n = some idx) :
    idx.all (fun p => P p.1) = true := by
  unfold upsert at h
  cases hl : mapLookup index d with
  | some m =>
    rw [hl] at h
    by_cases hg : goLookup m ns ≠ n
    · simp [hg] at h
    · simp only [hg, if_false] at h
      cases h
      exact mapInsert_all hInv hd
  | none =>
    rw [hl] at h
    simp only [Option.some.injEq] at h
    cases h
    exact mapInsert_all hInv hd

theorem remove_all_keys {index : DNSInfoMap} {d ns n : String} (P : String → Bool)
    (hInv : index.all (fun p => P p.1) = true) :
    (remove index d ns n).all (fun p => P p.1) = true := by
  cases hl : mapLookup index d with
  | none =>
    have hr : remove index d ns n = index := by
      unfold remove
      rw [hl]
    rw [hr]
    exact hInv
  | some m =>
    by_cases hg : goLookup m ns = n
    · by_cases hlen : 0 < (mapDelete m ns).length
      · have hr : remove index d ns n = mapInsert index d (mapDelete m ns) := by
          unfold remove
          rw [hl]
          simp [hg, hlen]
        rw [hr]
        have hd : P d = true := List.all_eq_true.mp hInv _ (mapLookup_mem hl)
        exact mapInsert_all hInv hd
      · have hr : remove index d ns n = mapDelete index d := by
          unfold remove
          rw [hl]
          simp [hg, hlen]
        rw [hr]
        exact mapDelete_all hInv
    · have hr : remove index d ns n = index := by
        unfold remove
        rw [hl]
        simp [hg]
      rw [hr]
      exact hInv

/-- Claim C7: a DNS name is classified by the pure predicate `isWildcard`
on its text; an Add or Delete mutates at most the index selected by that
classification (the other map is untouched), the classification of every
stored key is preserved, and under that invariant no dnsName has entries
in both indices. -/
theorem partition_exclusive (st : ResolverState) (b : Bool)
    (o : DNSNameResolverObj) (k : String) (m1 m2 : namespaceDNSInfo)
    (hPart : partitionB st = true) :
    (isWildcard o.specName = true →
      (handleAdd st b (some o)).1.regularDNSInfo = st.regularDNSInfo ∧
      (handleDelete st b (some o)).1.regularDNSInfo = st.regularDNSInfo) ∧
    (isWildcard o.specName = false →
      (handleAdd st b (some o)).1.wildcardDNSInfo = st.wildcardDNSInfo ∧
      (handleDelete st b (some o)).1.wildcardDNSInfo = st.wildcardDNSInfo) ∧
    partitionB (handleAdd st b (some o)).1 = true ∧
    partitionB (handleDelete st b (some o)).1 = true ∧
    (mapLookup st.regularDNSInfo k = some m1 →
      mapLookup st.wildcardDNSInfo k = some m2 → False) := by
  have hp : st.regularDNSInfo.all (fun p => !isWildcard p.1) = true ∧
      st.wildcardDNSInfo.all (fun p => isWildcard p.1) = true := by
    simpa [partitionB, Bool.and_eq_true] using hPart
  refine ⟨?_, ?_, ?_, ?_, ?_⟩
  · intro hw
    constructor
    · by_cases hns : configuredNamespace st.namespaces o.ns
      · cases hu : upsert st.wildcardDNSInfo o.specName o.ns o.name with
        | none => simp [handleAdd, hns, hw, hu]
        | some idx => simp [handleAdd, hns, hw, hu]
      · simp [handleAdd, hns]
    · by_cases hns : configuredNamespace st.namespaces o.ns
      · simp [handleDelete, hns, hw]
      · simp [handleDelete, hns]
  · intro hw
    constructor
    · by_cases hns : configuredNamespace st.namespaces o.ns
      · cases hu : upsert st.regularDNSInfo o.specName o.ns o.name with
        | none => simp [handleAdd, hns, hw, hu]
        | some idx => simp [handleAdd, hns, hw, hu]
      · simp [handleAdd, hns]
    · by_cases hns : configuredNamespace st.namespaces o.ns
      · simp [handleDelete, hns, hw]
      · simp [handleDelete, hns]
  · by_cases hns : configuredNamespace st.namespaces o.ns
    · by_cases hw : isWildcard o.specName
      · cases hu : upsert st.wildcardDNSInfo o.specName o.ns o.name with
        | none => simpa [handleAdd, hns, hw, hu] using hPart
        | some idx =>
          have h2 := upsert_all_keys (fun s => isWildcard s) hp.2 hw hu
          simp [handleAdd, hns, hw, hu, partitionB, hp.1, h2]
      · have hw' : isWildcard o.specName = false := by simpa using hw
        cases hu : upsert st.regularDNSInfo o.specName o.ns o.name with
        | none => simpa [handleAdd, hns, hw, hu] using hPart
        | some idx =>
          have h2 := upsert_all_keys (fun s => !isWildcard s) hp.1 (by simp [hw']) hu
          simp [handleAdd, hns, hw, hu, partitionB, hp.2, h2]
    · simpa [handleAdd, hns] using hPart
  · by_cases hns : configuredNamespace st.namespaces o.ns
    · by_cases hw : isWildcard o.specName
      · simp [handleDelete, hns, hw, partitionB, hp.1, remove_all_keys (fun s => isWildcard s) hp.2]
      · simp [handleDelete, hns, hw, partitionB, hp.2, remove_all_keys (fun s => !isWildcard s) hp.1]
    · simpa [handleDelete, hns] using hPart
  · intro h1 h2
    have ha := List.all_eq_true.mp hp.1 _ (mapLookup_mem h1)
    have hb := List.all_eq_true.mp hp.2 _ (mapLookup_mem h2)
    simp only [Bool.not_eq_true'] at ha
    simp [ha] at hb

/-- Witness for C7 at the concrete state: a wildcard Add touches only the
wildcard map, the partition invariant is preserved, and no key lives in
both maps. -/
theorem partition_exclusive_witness :
    partitionB exState = true ∧
    ((isWildcard "*.example.com" = true →
      (handleAdd exState true
        (some { ns := "ns1", name := "o1", specName := "*.example.com" })).1.regularDNSInfo =
        exState.regularDNSInfo ∧
      (handleDelete exState true
        (some { ns := "ns1", name := "o1", specName := "*.example.com" })).1.regularDNSInfo =
        exState.regularDNSInfo) ∧
    (isWildcard "*.example.com" = false →
      (handleAdd exState true
        (some { ns := "ns1", name := "o1", specName := "*.example.com" })).1.wildcardDNSInfo =
        exState.wildcardDNSInfo ∧
      (handleDelete exState true
        (some { ns := "ns1", name := "o1", specName := "*.example.com" })).1.wildcardDNSInfo =
        exState.wildcardDNSInfo) ∧
    partitionB (handleAdd exState true
      (some { ns := "ns1", name := "o1", specName := "*.example.com" })).1 = true ∧
    partitionB (handleDelete exState true
      (some { ns := "ns1", name := "o1", specName := "*.example.com" })).1 = true ∧
    (mapLookup exState.regularDNSInfo "www.example.com" = some [("ns1", "o1")] →
      mapLookup exState.wildcardDNSInfo "www.example.com" = some [("ns1", "o1")] →
      False)) :=
  ⟨by decide,
    partition_exclusive exState true
      { ns := "ns1", name := "o1", specName := "*.example.com" }
      "www.example.com" [("ns1", "o1")] [("ns1", "o1")] (by decide)⟩

theorem runShut_shutdown_fixed (n : Nat) (c : Nat) :
    runShut n { shutdown := true, stopChCloseCount := c } =
      ({ shutdown := true, stopChCloseCount := c },
       List.replicate n (some "shutdown already in progress")) := by
  induction n with
  | zero => rfl
  | succ k ih => simp [runShut, onShut, ih, List.replicate]

/-- Claim C3: over any positive number of consecutive shutdown calls from
the initial lifecycle state, the first call closes the cancellation
channel, sets the flag and succeeds; every later call returns the
"shutdown already in progress" error; the channel is closed exactly once. -/
theorem shutdown_idempotent (n : Nat) (hn : 1 ≤ n) :
    (runShut n initialLifecycleState).1.stopChCloseCount = 1 ∧
    (runShut n initialLifecycleState).1.shutdown = true ∧
    (runShut n initialLifecycleState).2 =
      none :: List.replicate (n - 1) (some "shutdown already in progress") := by
  obtain ⟨k, rfl⟩ : ∃ k, n = k + 1 := ⟨n - 1, (Nat.succ_pred_eq_of_pos hn).symm⟩
  simp [runShut, onShut, initialLifecycleState, runShut_shutdown_fixed]

/-- Witness for C3: two shutdown calls produce one success, one error, and
a single channel close. -/
theorem shutdown_idempotent_witness :
    1 ≤ 2 ∧
    ((runShut 2 initialLifecycleState).1.stopChCloseCount = 1 ∧
    (runShut 2 initialLifecycleState).1.shutdown = true ∧
    (runShut 2 initialLifecycleState).2 =
      none :: List.replicate (2 - 1) (some "shutdown already in progress")) :=
  ⟨by decide, shutdown_idempotent 2 (by decide)⟩

theorem onStartLoop_exit_ok (f : Nat → Bool) :
    ∀ (evs : List TickEvent) (polls : Nat) (r : Option String),
      onStartLoop f polls evs = some r → r = none := by
  intro evs
  induction evs with
  | nil =>
    intro polls r h
    simp [onStartLoop] at h
  | cons e rest ih =>
    intro polls r h
    cases e with
    | checkSync =>
      by_cases hs : f polls
      · simp [onStartLoop, hs] at h
        exact h.symm
      · exact ih (polls + 1) r (by simpa [onStartLoop, hs] using h)
    | logTick => exact ih polls r (by simpa [onStartLoop] using h)
    | timeout =>
      simp [onStartLoop] at h
      exact h.symm

theorem onStartLoop_timeout_exits (polls : Nat) (evs : List TickEvent)
    (hmem : TickEvent.timeout ∈ evs) :
    onStartLoop (fun _ => false) polls evs = some none := by
  revert hmem
  induction evs generalizing polls with
  | nil =>
    intro hmem
    simp at hmem
  | cons e rest ih =>
    intro hmem
    cases e with
    | checkSync =>
      simp only [List.mem_cons] at hmem
      have hm2 : TickEvent.timeout ∈ rest := by
        rcases hmem with h1 | h2
        · cases h1
        · exact h2
      simpa [onStartLoop] using ih (polls + 1) hm2
    | logTick =>
      simp only [List.mem_cons] at hmem
      have hm2 : TickEvent.timeout ∈ rest := by
        rcases hmem with h1 | h2
        · cases h1
        · exact h2
      simpa [onStartLoop] using ih polls hm2
    | timeout => simp [onStartLoop]

/-- Claim C9: the `onStart` wait loop never returns an error: whenever it
exits, the returned error value is the Go nil — both a positive has-synced
poll and the hard-deadline firing return success — and with an informer
that never syncs, any ticker trace containing the timeout firing still
exits successfully (fail open). -/
theorem onstart_never_errors (f : Nat → Bool) (polls : Nat)
    (evs : List TickEvent) (r : Option String) (polls2 : Nat)
    (evs2 : List TickEvent)
    (h : onStartLoop f polls evs = some r)
    (hmem : TickEvent.timeout ∈ evs2) :
    r = none ∧ onStartLoop (fun _ => false) polls2 evs2 = some none :=
  ⟨onStartLoop_exit_ok f evs polls r h, onStartLoop_timeout_exits polls2 evs2 hmem⟩

/-- Witness for C9: a trace that syncs on the first poll, and a never-
syncing trace that reaches the timeout ticker. -/
theorem onstart_never_errors_witness :
    onStartLoop (fun _ => true) 0 [TickEvent.checkSync] = some none ∧
    TickEvent.timeout ∈ [TickEvent.logTick, TickEvent.checkSync, TickEvent.timeout] ∧
    ((none : Option String) = none ∧
    onStartLoop (fun _ => false) 0
      [TickEvent.logTick, TickEvent.checkSync, TickEvent.timeout] = some none) :=
  ⟨rfl, by decide,
    onstart_never_errors (fun _ => true) 0 [TickEvent.checkSync] none 0
      [TickEvent.logTick, TickEvent.checkSync, TickEvent.timeout] rfl (by decide)⟩

end OCPDNSNameResolver
